import Mathlib

/-!
# Verification of `css_calculator.py` (Clean Spark Spread dashboard)

Shallow embedding of the single source file `src/css_calculator.py`.

Modelling choices:
* A timestamp (`Datetime` index entry) is a pair of a calendar day and a
  clock time.  Calendar dates are encoded as integers in `YYYYMMDD` form,
  which preserves the calendar order for all comparisons the script makes;
  the clock time is the minute of the day (0 .. 1439), which is enough
  resolution for the hourly data and for `between_time("08:00", "20:00")`.
* Numeric cell values are `Option ℚ`: `none` models a pandas `NaN`
  (missing value).  Pandas arithmetic propagates `NaN`, which the
  embedding mirrors by making every arithmetic combination of a `none`
  cell `none`.
* A dataframe row holds the three columns the formula reads: the selected
  power-market column (`df_filtered[country]`), the selected gas-index
  column (`df_filtered[gas_index]`) and `"EUA Prices"`.
* `round(x, 2)` is Python's float rounding, idealised over ℚ as
  round-half-to-even at two decimal places.
* `Series.mean()` follows pandas' `skipna=True` semantics: the mean of the
  present (non-`NaN`) values, and `NaN` (here `none`) when no value is
  present — in particular on an empty series.
-/

/-- A timestamp of the `Datetime` index: calendar day (as `YYYYMMDD`
integer) and minute of the day. -/
structure Ts where
  day : ℤ
  minute : ℕ
  deriving DecidableEq, Repr

/-- One row of the dataset, restricted to the three columns the CSS
formula reads; `none` models a pandas `NaN`. -/
structure Row where
  market : Option ℚ
  gas : Option ℚ
  eua : Option ℚ
  deriving DecidableEq, Repr

/-- The dataframe `df` after `set_index("Datetime")`: an ordered list of
(timestamp, row) pairs. -/
abbrev Frame := List (Ts × Row)

/-- A frame carrying the extra `"CSS"` column. -/
abbrev CssFrame := List (Ts × Row × Option ℚ)

/-- `mask = (df.index.date >= start_date) & (df.index.date <= end_date)`
followed by `df[mask]`: keep the rows whose calendar date lies in the
inclusive interval. -/
def filterRange (df : Frame) (startDate endDate : ℤ) : Frame :=
  df.filter fun e => decide (startDate ≤ e.1.day) && decide (e.1.day ≤ endDate)

/-- The CSS value of one row:
`df_filtered[country] - df_filtered[gas_index] / efficiency
 - df_filtered["EUA Prices"] * (emission_factor_th / efficiency)
 - variable_cost`, with `NaN` (missing) propagating as in pandas. -/
def cssRow (r : Row) (efficiency emissionFactorTh variableCost : ℚ) : Option ℚ :=
  match r.market, r.gas, r.eua with
  | some m, some g, some c =>
      some (m - g / efficiency - c * (emissionFactorTh / efficiency) - variableCost)
  | _, _, _ => none

/-- `df_filtered["CSS"] = ...`: the filtered frame with the computed CSS
column attached. -/
def addCSS (f : Frame) (efficiency emissionFactorTh variableCost : ℚ) : CssFrame :=
  f.map fun e => (e.1, e.2, cssRow e.2 efficiency emissionFactorTh variableCost)

/-- The `"CSS"` column of a `CssFrame`. -/
def cssCol (f : CssFrame) : List (Option ℚ) :=
  f.map fun e => e.2.2

/-- `df_filtered.between_time("08:00", "20:00")` on a frame with CSS
column: keep rows whose clock time is in [08:00, 20:00], inclusive on
both ends (pandas default). -/
def betweenTimePeak (f : CssFrame) : CssFrame :=
  f.filter fun e => decide (480 ≤ e.1.minute) && decide (e.1.minute ≤ 1200)

/-- Round-half-to-even to an integer (Python 3 `round` semantics,
idealised over ℚ). -/
def roundHalfEven (q : ℚ) : ℤ :=
  if q - ⌊q⌋ < 1/2 then ⌊q⌋
  else if 1/2 < q - ⌊q⌋ then ⌊q⌋ + 1
  else if ⌊q⌋ % 2 = 0 then ⌊q⌋ else ⌊q⌋ + 1

/-- `round(x, 2)`: round to two decimal places, half to even. -/
def round2 (q : ℚ) : ℚ := (roundHalfEven (q * 100) : ℚ) / 100

/-- Pandas `Series.mean()` with the default `skipna=True`: the arithmetic
mean of the present values, `NaN` (`none`) when there is none. -/
def seriesMean (vals : List (Option ℚ)) : Option ℚ :=
  if (vals.filterMap id).isEmpty then none
  else some ((vals.filterMap id).sum / (vals.filterMap id).length)

/-- `avg_css = round(df_filtered["CSS"].mean(), 2)` (NaN rounds to NaN). -/
def avg_css (f : CssFrame) : Option ℚ :=
  (seriesMean (cssCol f)).map round2

/-- `peak_css = round(df_filtered.between_time("08:00", "20:00")["CSS"].mean(), 2)`. -/
def peak_css (f : CssFrame) : Option ℚ :=
  (seriesMean (cssCol (betweenTimePeak f))).map round2

/-- The f-string interpolation of a metric: Python renders `float("nan")`
as `"nan"`, any finite rounded value as its decimal numeral. -/
def renderMetric (o : Option ℚ) : String :=
  match o with
  | none => "nan"
  | some q => toString q

/-- The fixed floor date `pd.to_datetime("2025-04-01").date()`, in the
`YYYYMMDD` integer encoding of calendar dates. -/
def floorDate : ℤ := 20250401

/-- `dates = df.index.date`: the calendar dates of the index. -/
def datasetDates (df : Frame) : List ℤ :=
  df.map fun e => e.1.day

/-- `min_date = max(min(dates), pd.to_datetime("2025-04-01").date())`:
the selectable lower bound of the date picker (`none` on an empty
dataset, where Python `min` would raise). -/
def min_date (df : Frame) : Option ℤ :=
  (datasetDates df).min?.map fun m => max m floorDate

/-- `max_date = max(dates)`: the default upper bound of the date picker. -/
def max_date (df : Frame) : Option ℤ :=
  (datasetDates df).max?

/-- `efficiency = st.sidebar.slider("Efficiency (%)", ...) / 100`, as a
function of the integer slider value. -/
def efficiencyOf (v : ℤ) : ℚ := (v : ℚ) / 100

/-- The mutable state of the script: the module-level dataframe `df` and
the derived `df_filtered`. -/
structure ScriptState where
  df : Frame
  dfFiltered : CssFrame
  deriving Repr

/-- One full recomputation pass of the script body:
`df_filtered = df[mask].copy()` followed by
`df_filtered["CSS"] = ...`.  Because of the `.copy()`, the column
assignment writes only to `dfFiltered`, never to `df`. -/
def runScript (s : ScriptState) (d1 d2 : ℤ) (eff ef vc : ℚ) : ScriptState :=
  { df := s.df, dfFiltered := addCSS (filterRange s.df d1 d2) eff ef vc }

/-! ## Helper lemmas -/

theorem intMin?_iff (l : List ℤ) (m : ℤ) :
    l.min? = some m ↔ m ∈ l ∧ ∀ x ∈ l, m ≤ x := by
  haveI : Std.Antisymm (fun (a b : ℤ) => a ≤ b) := ⟨fun h h' => le_antisymm h h'⟩
  exact List.min?_eq_some_iff (fun a => le_refl a) (fun a b => min_choice a b)
    (fun a b c => le_min_iff)

theorem intMax?_iff (l : List ℤ) (M : ℤ) :
    l.max? = some M ↔ M ∈ l ∧ ∀ x ∈ l, x ≤ M := by
  haveI : Std.Antisymm (fun (a b : ℤ) => a ≤ b) := ⟨fun h h' => le_antisymm h h'⟩
  exact List.max?_eq_some_iff (fun a => le_refl a) (fun a b => max_choice a b)
    (fun a b c => max_le_iff)

theorem seriesMean_map_some (vs : List ℚ) (h : vs ≠ []) :
    seriesMean (vs.map some) = some (vs.sum / vs.length) := by
  have hid : (vs.map some).filterMap id = vs := by simp
  simp [seriesMean, hid, h]

/-! ## Claim theorems -/

/-- C1: for every timestamp in the filtered range the computed CSS value
equals `marketPrice − gasPrice/efficiency −
carbonPrice·(emissionFactorThermal/efficiency) − variableCost`; in
particular market=100, gas=30, carbon=80, efficiency=0.5,
emissionFactor=0.09, variableCost=2 gives exactly 23.6 (= 118/5), and
efficiency=0.3 with the same other inputs gives exactly −26. -/
theorem spec_C1 (df : Frame) (d1 d2 : ℤ) (eff ef vc : ℚ) (t : Ts) (r : Row)
    (c : Option ℚ) (m g u : ℚ)
    (hmem : (t, r, c) ∈ addCSS (filterRange df d1 d2) eff ef vc)
    (hm : r.market = some m) (hg : r.gas = some g) (hu : r.eua = some u) :
    c = some (m - g / eff - u * (ef / eff) - vc)
    ∧ cssRow ⟨some 100, some 30, some 80⟩ (1/2) (9/100) 2 = some (118/5)
    ∧ cssRow ⟨some 100, some 30, some 80⟩ (3/10) (9/100) 2 = some (-26) := by
  refine ⟨?_, by norm_num [cssRow], by norm_num [cssRow]⟩
  simp only [addCSS, List.mem_map] at hmem
  obtain ⟨a, -, ha⟩ := hmem
  injection ha with h1 h23
  injection h23 with h2 h3
  subst h2
  rw [← h3, cssRow, hm, hg, hu]

/-- Witness for C1 at a concrete one-row dataset. -/
theorem spec_C1_witness :
    (some ((118:ℚ)/5)
      = some ((100:ℚ) - 30 / (1/2) - 80 * ((9/100) / (1/2)) - 2))
    ∧ cssRow ⟨some 100, some 30, some 80⟩ (1/2) (9/100) 2 = some (118/5)
    ∧ cssRow ⟨some 100, some 30, some 80⟩ (3/10) (9/100) 2 = some (-26) :=
  spec_C1 [(⟨20250401, 600⟩, ⟨some 100, some 30, some 80⟩)] 20250401 20250401
    (1/2) (9/100) 2 ⟨20250401, 600⟩ ⟨some 100, some 30, some 80⟩
    (some (118/5)) 100 30 80
    (by norm_num [addCSS, filterRange, cssRow]) rfl rfl rfl

/-- C4: if any of the three input columns is missing (`NaN`) at a
timestamp, the CSS value computed for that timestamp is missing as well;
it is never replaced by `0` or any default. -/
theorem spec_C4 (f : Frame) (eff ef vc : ℚ) (t : Ts) (r : Row) (c : Option ℚ)
    (hmem : (t, r, c) ∈ addCSS f eff ef vc)
    (hmiss : r.market = none ∨ r.gas = none ∨ r.eua = none) :
    c = none := by
  simp only [addCSS, List.mem_map] at hmem
  obtain ⟨a, -, ha⟩ := hmem
  injection ha with h1 h23
  injection h23 with h2 h3
  subst h2
  rw [← h3]
  rcases a with ⟨ats, rm, rg, ru⟩
  simp only at hmiss
  cases rm <;> cases rg <;> cases ru <;> simp_all [cssRow]

/-- Witness for C4: a row with a missing market price yields a missing
CSS value. -/
theorem spec_C4_witness :
    ((⟨20250401, 0⟩, (⟨none, some 1, some 2⟩ : Row), (none : Option ℚ))
      ∈ addCSS [(⟨20250401, 0⟩, ⟨none, some 1, some 2⟩)] 1 1 1)
    ∧ (none : Option ℚ) = none :=
  ⟨by simp [addCSS, cssRow],
   spec_C4 [(⟨20250401, 0⟩, ⟨none, some 1, some 2⟩)] 1 1 1
     ⟨20250401, 0⟩ ⟨none, some 1, some 2⟩ none
     (by simp [addCSS, cssRow]) (Or.inl rfl)⟩

/-- C5: raising `variable_cost` by δ lowers the CSS value by exactly δ at
every timestamp (missing stays missing). -/
theorem spec_C5 (r : Row) (eff ef vc δ : ℚ) (heff : eff ≠ 0) :
    cssRow r eff ef (vc + δ) = (cssRow r eff ef vc).map fun x => x - δ := by
  rcases r with ⟨rm, rg, ru⟩
  cases rm <;> cases rg <;> cases ru <;> simp [cssRow] <;> ring

/-- Witness for C5 at the spec's scenario row with δ = 1. -/
theorem spec_C5_witness :
    cssRow ⟨some 100, some 30, some 80⟩ (1/2) (9/100) (2 + 1)
      = (cssRow ⟨some 100, some 30, some 80⟩ (1/2) (9/100) 2).map
          fun x => x - 1 :=
  spec_C5 ⟨some 100, some 30, some 80⟩ (1/2) (9/100) 2 1 (by norm_num)

/-- C6: the CSS value is non-decreasing in the market price, all other
inputs held fixed. -/
theorem spec_C6 (m1 m2 g u eff ef vc : ℚ) (h : m1 ≤ m2) (c1 c2 : ℚ)
    (h1 : cssRow ⟨some m1, some g, some u⟩ eff ef vc = some c1)
    (h2 : cssRow ⟨some m2, some g, some u⟩ eff ef vc = some c2) :
    c1 ≤ c2 := by
  simp only [cssRow, Option.some.injEq] at h1 h2
  rw [← h1, ← h2]
  linarith

/-- Witness for C6: market 100 versus 110 at the spec's scenario. -/
theorem spec_C6_witness : (118:ℚ)/5 ≤ 168/5 :=
  spec_C6 100 110 30 80 (1/2) (9/100) 2 (by norm_num) (118/5) (168/5)
    (by norm_num [cssRow]) (by norm_num [cssRow])

/-- C2: `avg_css` is the arithmetic mean of the CSS values of the full
filtered series and `peak_css` is the arithmetic mean of the CSS values
at timestamps whose clock time lies in [08:00, 20:00] inclusive on both
ends, both rounded to two decimal places. -/
theorem spec_C2 (f : CssFrame) (vs ps : List ℚ)
    (hall : cssCol f = vs.map some) (hne : vs ≠ [])
    (hpeakall : cssCol (betweenTimePeak f) = ps.map some) (hpne : ps ≠ []) :
    avg_css f = some (round2 (vs.sum / vs.length))
    ∧ peak_css f = some (round2 (ps.sum / ps.length))
    ∧ ∀ e : Ts × Row × Option ℚ,
        e ∈ betweenTimePeak f ↔ e ∈ f ∧ 480 ≤ e.1.minute ∧ e.1.minute ≤ 1200 := by
  refine ⟨?_, ?_, ?_⟩
  · rw [avg_css, hall, seriesMean_map_some vs hne]
    rfl
  · rw [peak_css, hpeakall, seriesMean_map_some ps hpne]
    rfl
  · intro e
    simp [betweenTimePeak, List.mem_filter]

/-- Witness for C2 on a two-row frame with one row in the peak window. -/
theorem spec_C2_witness :
    avg_css [(⟨20250401, 0⟩, ⟨some 0, some 0, some 0⟩, some 1),
             (⟨20250401, 480⟩, ⟨some 0, some 0, some 0⟩, some 3)]
      = some (round2 (([1, 3] : List ℚ).sum / ([1, 3] : List ℚ).length))
    ∧ peak_css [(⟨20250401, 0⟩, ⟨some 0, some 0, some 0⟩, some 1),
                (⟨20250401, 480⟩, ⟨some 0, some 0, some 0⟩, some 3)]
      = some (round2 (([3] : List ℚ).sum / ([3] : List ℚ).length))
    ∧ ∀ e : Ts × Row × Option ℚ,
        e ∈ betweenTimePeak [(⟨20250401, 0⟩, ⟨some 0, some 0, some 0⟩, some 1),
                             (⟨20250401, 480⟩, ⟨some 0, some 0, some 0⟩, some 3)]
          ↔ e ∈ [(⟨20250401, 0⟩, ⟨some 0, some 0, some 0⟩, some 1),
                 (⟨20250401, 480⟩, ⟨some 0, some 0, some 0⟩, some 3)]
            ∧ 480 ≤ e.1.minute ∧ e.1.minute ≤ 1200 :=
  spec_C2 [(⟨20250401, 0⟩, ⟨some 0, some 0, some 0⟩, some 1),
           (⟨20250401, 480⟩, ⟨some 0, some 0, some 0⟩, some 3)]
    [1, 3] [3] rfl (by simp) rfl (by simp)

/-- C3 (code bug): on an empty filtered frame the mean is `NaN`, the
rounding keeps it `NaN`, and the display interpolates the string `"nan"`
— not the required `"no data"`; likewise for the peak mean when no row
lies in the peak window. -/
theorem spec_C3_failing :
    avg_css ([] : CssFrame) = none
    ∧ renderMetric (avg_css ([] : CssFrame)) = "nan"
    ∧ peak_css [(⟨20250401, 0⟩, (⟨some 100, some 30, some 80⟩ : Row), some (1:ℚ))]
        = none
    ∧ renderMetric
        (peak_css [(⟨20250401, 0⟩, (⟨some 100, some 30, some 80⟩ : Row), some (1:ℚ))])
        = "nan"
    ∧ "nan" ≠ "no data" := by
  refine ⟨rfl, rfl, rfl, rfl, by decide⟩

/-- C7: the date filter keeps exactly the rows whose calendar date lies
in the inclusive interval; the selectable lower bound is the later of the
dataset minimum date and the fixed floor 2025-04-01, and the upper bound
defaults to the dataset maximum date. -/
theorem spec_C7 (df : Frame) (d1 d2 : ℤ) (e : Ts × Row) (dmin dmax : ℤ)
    (hmin : (datasetDates df).min? = some dmin)
    (hmax : (datasetDates df).max? = some dmax) :
    (e ∈ filterRange df d1 d2 ↔ e ∈ df ∧ d1 ≤ e.1.day ∧ e.1.day ≤ d2)
    ∧ min_date df = some (max dmin floorDate)
    ∧ max_date df = some dmax
    ∧ dmin ∈ datasetDates df ∧ (∀ d ∈ datasetDates df, dmin ≤ d)
    ∧ dmax ∈ datasetDates df ∧ (∀ d ∈ datasetDates df, d ≤ dmax) := by
  obtain ⟨hm1, hm2⟩ := (intMin?_iff _ _).mp hmin
  obtain ⟨hM1, hM2⟩ := (intMax?_iff _ _).mp hmax
  refine ⟨?_, ?_, ?_, hm1, hm2, hM1, hM2⟩
  · simp [filterRange, List.mem_filter]
  · rw [min_date, hmin]
    rfl
  · rw [max_date, hmax]

/-- Witness for C7 on a one-row dataset dated before the floor date:
the selectable lower bound is clamped up to 2025-04-01. -/
theorem spec_C7_witness :
    ((⟨20250301, 0⟩, (⟨some 1, some 1, some 1⟩ : Row))
        ∈ filterRange [(⟨20250301, 0⟩, ⟨some 1, some 1, some 1⟩)] 20250201 20250401
      ↔ ((⟨20250301, 0⟩ : Ts), (⟨some 1, some 1, some 1⟩ : Row))
          ∈ ([((⟨20250301, 0⟩ : Ts), (⟨some 1, some 1, some 1⟩ : Row))] : Frame)
        ∧ (20250201 : ℤ) ≤ 20250301 ∧ (20250301 : ℤ) ≤ 20250401)
    ∧ min_date [(⟨20250301, 0⟩, ⟨some 1, some 1, some 1⟩)]
        = some (max 20250301 floorDate)
    ∧ max_date [(⟨20250301, 0⟩, ⟨some 1, some 1, some 1⟩)] = some 20250301
    ∧ (20250301 : ℤ) ∈ datasetDates [(⟨20250301, 0⟩, ⟨some 1, some 1, some 1⟩)]
    ∧ (∀ d ∈ datasetDates [(⟨20250301, 0⟩, ⟨some 1, some 1, some 1⟩)],
        (20250301 : ℤ) ≤ d)
    ∧ (20250301 : ℤ) ∈ datasetDates [(⟨20250301, 0⟩, ⟨some 1, some 1, some 1⟩)]
    ∧ (∀ d ∈ datasetDates [(⟨20250301, 0⟩, ⟨some 1, some 1, some 1⟩)],
        d ≤ (20250301 : ℤ)) :=
  spec_C7 [(⟨20250301, 0⟩, ⟨some 1, some 1, some 1⟩)] 20250201 20250401
    (⟨20250301, 0⟩, ⟨some 1, some 1, some 1⟩) 20250301 20250301 rfl rfl

/-- C8: date filtering is idempotent — refiltering the filtered series by
its own resulting date bounds (its minimum and maximum date), or by the
original interval again, returns it unchanged. -/
theorem spec_C8 (df : Frame) (d1 d2 m M : ℤ)
    (hm : (datasetDates (filterRange df d1 d2)).min? = some m)
    (hM : (datasetDates (filterRange df d1 d2)).max? = some M) :
    filterRange (filterRange df d1 d2) m M = filterRange df d1 d2
    ∧ filterRange (filterRange df d1 d2) d1 d2 = filterRange df d1 d2 := by
  have hm2 := ((intMin?_iff _ _).mp hm).2
  have hM2 := ((intMax?_iff _ _).mp hM).2
  constructor
  · rw [filterRange, List.filter_eq_self]
    intro a ha
    have hd : a.1.day ∈ datasetDates (filterRange df d1 d2) :=
      List.mem_map_of_mem _ ha
    simp [hm2 _ hd, hM2 _ hd]
  · rw [filterRange, List.filter_eq_self]
    intro a ha
    exact (List.mem_filter.mp ha).2

/-- Witness for C8 on a concrete two-row dataset. -/
theorem spec_C8_witness :
    filterRange
        (filterRange [(⟨20250401, 0⟩, (⟨some 1, some 1, some 1⟩ : Row)),
                      (⟨20250403, 0⟩, ⟨some 2, some 2, some 2⟩)]
          20250401 20250402)
        20250401 20250401
      = filterRange [(⟨20250401, 0⟩, (⟨some 1, some 1, some 1⟩ : Row)),
                     (⟨20250403, 0⟩, ⟨some 2, some 2, some 2⟩)]
          20250401 20250402
    ∧ filterRange
        (filterRange [(⟨20250401, 0⟩, (⟨some 1, some 1, some 1⟩ : Row)),
                      (⟨20250403, 0⟩, ⟨some 2, some 2, some 2⟩)]
          20250401 20250402)
        20250401 20250402
      = filterRange [(⟨20250401, 0⟩, (⟨some 1, some 1, some 1⟩ : Row)),
                     (⟨20250403, 0⟩, ⟨some 2, some 2, some 2⟩)]
          20250401 20250402 :=
  spec_C8 [(⟨20250401, 0⟩, ⟨some 1, some 1, some 1⟩),
           (⟨20250403, 0⟩, ⟨some 2, some 2, some 2⟩)]
    20250401 20250402 20250401 20250401 (by decide) (by decide)

/-- C9: the efficiency slider is constrained to [30, 65] percent, so the
efficiency used as divisor in the CSS formula is always at least 0.3 (and
at most 0.65), in particular nonzero: the division-by-zero case is
unreachable. -/
theorem spec_C9 (v : ℤ) (h30 : 30 ≤ v) (h65 : v ≤ 65) :
    (3/10 : ℚ) ≤ efficiencyOf v ∧ efficiencyOf v ≤ 13/20
    ∧ efficiencyOf v ≠ 0 := by
  have hv : (30 : ℚ) ≤ (v : ℚ) := by exact_mod_cast h30
  have hv' : (v : ℚ) ≤ 65 := by exact_mod_cast h65
  rw [efficiencyOf]
  refine ⟨by linarith, by linarith, ?_⟩
  intro h0
  have : (v : ℚ) = 0 := by
    field_simp at h0
    exact_mod_cast h0
  linarith

/-- Witness for C9 at the default slider value 50. -/
theorem spec_C9_witness :
    (3/10 : ℚ) ≤ efficiencyOf 50 ∧ efficiencyOf 50 ≤ 13/20
    ∧ efficiencyOf 50 ≠ 0 :=
  spec_C9 50 (by norm_num) (by norm_num)

/-- C10: recomputation never modifies the loaded dataset — the filter
copies the matching rows and the CSS column is attached to that copy
only, so `df` is unchanged by one pass and by any sequence of passes. -/
theorem spec_C10 (s : ScriptState) (d1 d2 : ℤ) (eff ef vc : ℚ)
    (passes : List (ℤ × ℤ × ℚ × ℚ × ℚ)) :
    (runScript s d1 d2 eff ef vc).df = s.df
    ∧ (runScript s d1 d2 eff ef vc).dfFiltered
        = addCSS (filterRange s.df d1 d2) eff ef vc
    ∧ (passes.foldl
        (fun st p => runScript st p.1 p.2.1 p.2.2.1 p.2.2.2.1 p.2.2.2.2)
        s).df = s.df := by
  refine ⟨rfl, rfl, ?_⟩
  induction passes generalizing s with
  | nil => rfl
  | cons p ps ih =>
    rw [List.foldl_cons, ih]
    rfl
